import Mathlib

/-!
Verification development for the paperless-rest batch ingestion pipeline
(`src/main.py`).

The program is a PDF splitter and renamer: it splits every PDF in a consume
folder into single-page files in an output folder (`split_pdf`), renames them
with a globally carried counter (`rename_files`), optionally uploads them
(`upload`), lets an operator curate the consume folder interactively
(`clean_consume`), and optionally archives the consume folder (the unguarded
rename loop at the end of `main`).

Modelling conventions:
* Filenames are Lean `String`s.  Python compares strings by code point, so
  the lexicographic order used by `sorted` is modelled by `lexLe` on the
  character lists (Lean's own `String.ltb` is avoided because it does not
  reduce in the kernel); `pySorted` is a stable insertion sort with that
  order, matching the contract of Python's stable `sorted`.
* Directory contents are lists of `FileEnt`.  The `fid` field is a
  model-level identity for one file artifact (it has no counterpart in the
  code); it lets us state how many *distinct* files an operation touched.
  Renaming keeps the `fid` and changes the name, writing a file allocates a
  fresh `fid`.
* Fallible I/O calls (`os.rename`, `os.remove`, `os.makedirs`, HTTP) are
  modelled with explicit success oracles, one per call site, so that the
  partial-failure policies of each loop can be stated.
* `datetime.now()` is captured once per `rename_files` invocation in the
  source; it enters the model as an explicit timestamp argument.
-/

namespace PaperlessRest

/-- Lexicographic (code-point) order on character lists; this is the order
Python uses to compare strings, written so that it reduces in the kernel. -/
def lexLe : List Char → List Char → Bool
  | [], _ => true
  | _ :: _, [] => false
  | a :: as, b :: bs =>
      if a.toNat < b.toNat then true
      else if b.toNat < a.toNat then false
      else lexLe as bs

/-- Insert a string into a sorted list, keeping earlier elements first on
ties (stability, as guaranteed by Python's `sorted`). -/
def insertSorted (s : String) : List String → List String
  | [] => [s]
  | t :: ts => if lexLe s.toList t.toList then s :: t :: ts else t :: insertSorted s ts

/-- Model of Python's `sorted` on strings: a stable sort by code-point order. -/
def pySorted : List String → List String
  | [] => []
  | s :: rest => insertSorted s (pySorted rest)

/-- Model of Python's `str.endswith`. -/
def pyEndsWith (s suf : String) : Bool := decide (List.IsSuffix suf.toList s.toList)

/-- Model of Python's `in` operator on strings (substring test). -/
def pyContains (s sub : String) : Bool := decide (List.IsInfix sub.toList s.toList)

/-- Temporary page name written by `split_pdf` (line 66 of `main.py`):
`f"temp_page_{page_num + 1}.pdf"`. -/
def tempName (k : Nat) : String := "temp_page_" ++ Nat.repr k ++ ".pdf"

/-- Python's `f"{n:02}"`: decimal rendering left-padded with zeros to width
at least 2. -/
def pad2 (n : Nat) : String := if n < 10 then "0" ++ Nat.repr n else Nat.repr n

/-- Final name assigned by `rename_files` (line 89 of `main.py`):
`f"{start_index:02}_Xerox_Scan_{creation_date}.pdf"`. -/
def finalName (idx : Nat) (ts : String) : String := pad2 idx ++ "_Xerox_Scan_" ++ ts ++ ".pdf"

/-- One file in a directory.  `name` is the filename; `fid` is a model-level
identity of the artifact (no counterpart in the code) used to count distinct
files. -/
structure FileEnt where
  fid : Nat
  name : String
deriving DecidableEq

/-- Writing a file with `open(path, "wb")`: truncates an existing file of the
same name (the entry is replaced, becoming a fresh artifact) or creates a new
directory entry. -/
def fsWrite (dir : List FileEnt) (fid : Nat) (name : String) : List FileEnt :=
  if dir.any (fun e => e.name == name) then
    dir.map (fun e => if e.name == name then ⟨fid, name⟩ else e)
  else
    dir ++ [⟨fid, name⟩]

/-- Result of `split_pdf`: the returned boolean, the output directory
contents, and the next fresh artifact id. -/
structure SplitResult where
  success : Bool
  dir : List FileEnt
  nextFid : Nat
deriving DecidableEq

/-- Model of `split_pdf(pdf_path, output_folder)` (lines 50-77 of `main.py`).
`dirOk` is the result of the `validate_path(output_dir)` call, `pdfExists`
models the `os.path.exists` check, `numPages` the page count (`0` is the
"PDF file is empty" failure), and `pageOk k` tells whether extracting and
writing page `k` (1-based) succeeds; a failed page is logged and skipped
while the loop continues, and the function still returns `True`. -/
def split_pdf (dirOk pdfExists : Bool) (numPages : Nat) (pageOk : Nat → Bool)
    (dir : List FileEnt) (nextFid : Nat) : SplitResult :=
  if dirOk = false then ⟨false, dir, nextFid⟩
  else if pdfExists = false then ⟨false, dir, nextFid⟩
  else if numPages = 0 then ⟨false, dir, nextFid⟩
  else
    let r := (List.range numPages).foldl
      (fun acc k =>
        if pageOk (k + 1) then (fsWrite acc.1 acc.2 (tempName (k + 1)), acc.2 + 1) else acc)
      (dir, nextFid)
    ⟨true, r.1, r.2⟩

/-- State threaded through the rename loop of `rename_files`: the counter
(`start_index` in the source), the directory contents, and the accumulated
ids of files successfully renamed so far in the run (model-level). -/
structure RLoop where
  counter : Nat
  dir : List FileEnt
  renamed : List Nat
deriving DecidableEq

/-- The `for filename in sorted(files)` loop of `rename_files` (lines 86-95).
`ok f` tells whether the `os.rename` call for the file currently named `f`
succeeds; on success the counter advances and the entry is renamed to
`finalName`, on failure the error is logged and the loop continues with the
counter unchanged. -/
def renameLoop (ok : String → Bool) (ts : String) : List String → Nat → List FileEnt → List Nat → RLoop
  | [], idx, dir, ren => ⟨idx, dir, ren⟩
  | f :: rest, idx, dir, ren =>
      if ok f then
        renameLoop ok ts rest (idx + 1)
          (dir.map (fun e => if e.name == f then ⟨e.fid, finalName idx ts⟩ else e))
          (ren ++ (dir.filter (fun e => e.name == f)).map FileEnt.fid)
      else
        renameLoop ok ts rest idx dir ren

/-- Result of `rename_files`: the returned `(bool, start_index)` pair plus the
directory contents and the model-level rename log. -/
structure RenameResult where
  success : Bool
  counter : Nat
  dir : List FileEnt
  renamed : List Nat
deriving DecidableEq

/-- Model of `rename_files(output_dir, start_index)` (lines 79-100 of
`main.py`).  Note that line 81 lists every file of the directory whose name
ends in `.pdf` - including files renamed by earlier invocations that are
still in the output folder - and the loop runs over that whole listing in
sorted order. -/
def rename_files (ok : String → Bool) (ts : String) (dir : List FileEnt) (start_index : Nat)
    (ren : List Nat) : RenameResult :=
  let files := (dir.map FileEnt.name).filter (fun f => pyEndsWith f ".pdf")
  if files.isEmpty then ⟨false, start_index, dir, ren⟩
  else
    let r := renameLoop ok ts (pySorted files) start_index dir ren
    ⟨true, r.counter, r.dir, r.renamed⟩

/-- One source document of the per-document loop of `main` (lines 239-247):
whether its path exists, its page count, the per-page extraction oracle, and
the timestamp `datetime.now()` produces during its `rename_files` call. -/
structure Doc where
  pdfExists : Bool
  numPages : Nat
  pageOk : Nat → Bool
  ts : String

/-- State held by `main` across the per-document loop: output directory
contents, the `rename_counter` variable, and the model-level fresh-id and
rename-log fields. -/
structure RunState where
  dir : List FileEnt
  counter : Nat
  nextFid : Nat
  renamedFids : List Nat
deriving DecidableEq

/-- The per-document loop of `main` (lines 238-247): for each PDF in the
consume folder run `split_pdf`; on success run `rename_files` with the
carried counter and take the returned counter; on failure log and continue
with the counter unchanged.  The `validate_path` call inside `split_pdf`
succeeds throughout the loop because the output folder was created at
startup, hence `dirOk := true`. -/
def processDocs (ok : String → Bool) : List Doc → RunState → RunState
  | [], st => st
  | d :: rest, st =>
      let s := split_pdf true d.pdfExists d.numPages d.pageOk st.dir st.nextFid
      if s.success then
        let r := rename_files ok d.ts s.dir st.counter st.renamedFids
        processDocs ok rest ⟨r.dir, r.counter, s.nextFid, r.renamed⟩
      else
        processDocs ok rest ⟨s.dir, st.counter, s.nextFid, st.renamedFids⟩

/-- Number of successful `os.rename` operations one `rename_files` invocation
performs on a given directory: all listed `.pdf` files whose rename oracle
succeeds (zero when the listing is empty and the function bails out). -/
def renameOpsCount (ok : String → Bool) (dir : List FileEnt) : Nat :=
  let files := (dir.map FileEnt.name).filter (fun f => pyEndsWith f ".pdf")
  if files.isEmpty then 0 else ((pySorted files).filter ok).length

/-- Total number of successful `os.rename` operations performed by the
per-document loop, recomputed independently of the counter. -/
def runOpsCount (ok : String → Bool) : List Doc → RunState → Nat
  | [], _ => 0
  | d :: rest, st =>
      let s := split_pdf true d.pdfExists d.numPages d.pageOk st.dir st.nextFid
      (if s.success then renameOpsCount ok s.dir else 0) +
        runOpsCount ok rest (processDocs ok [d] st)

/-- Oracle under which every fallible file operation succeeds. -/
def okAll : String → Bool := fun _ => true

/-- Page-extraction oracle under which every page succeeds. -/
def pagesAll : Nat → Bool := fun _ => true

/-- Document A of the two-document scenario: 3 pages, everything succeeds,
its rename pass runs at timestamp "A". -/
def docA : Doc := ⟨true, 3, pagesAll, "A"⟩

/-- Document B of the two-document scenario: 2 pages, everything succeeds,
its rename pass runs at timestamp "B". -/
def docB : Doc := ⟨true, 2, pagesAll, "B"⟩

/-- Initial run state: output folder just cleaned, `rename_counter = 1`. -/
def st0 : RunState := ⟨[], 1, 0, []⟩

/-- The run that processes document A (3 pages) then document B (2 pages)
with every file operation succeeding. -/
def runAB : RunState := processDocs okAll [docA, docB] st0

/-! ### Startup configuration phase (lines 222-228 of `main.py`) -/

/-- The placeholder substring tested at line 223 of `main.py`. -/
def placeholderText : String := "C:/path/to/"

/-- Model of `validate_path(path)` (lines 25-33 of `main.py`): an existing
path validates without touching the file system; otherwise `os.makedirs`
is attempted (`mkdirOk` is its success oracle).  Returns the boolean result
and the list of directories created. -/
def validate_path (pathExists mkdirOk : String → Bool) (path : String) : Bool × List String :=
  if pathExists path then (true, [])
  else if mkdirOk path then (true, [path])
  else (false, [])

/-- Outcome of the configuration phase of `main`. -/
inductive ConfigOutcome where
  | fatalPlaceholder
  | fatalValidate
  | proceeded
deriving DecidableEq

/-- Result of the configuration phase: its outcome together with every
directory created and every output file removed during it (the file-system
footprint of lines 222-228). -/
structure ConfigResult where
  outcome : ConfigOutcome
  dirsCreated : List String
  filesRemoved : List String
deriving DecidableEq

/-- Model of lines 222-228 of `main.py`: the placeholder test on
`consume_folder` and `output_folder` (line 223 - note that `pubkey` is not
part of that test), then `all([validate_path(consume_folder),
validate_path(output_folder)])` (Python evaluates both list elements before
`all`), then `clean_output(output_folder)`, which removes every regular file
of the output folder. -/
def configPhase (pathExists mkdirOk : String → Bool) (consume output pubkey : String)
    (outputFiles : List String) : ConfigResult :=
  if pyContains consume placeholderText || pyContains output placeholderText then
    ⟨.fatalPlaceholder, [], []⟩
  else
    let v1 := validate_path pathExists mkdirOk consume
    let v2 := validate_path pathExists mkdirOk output
    if v1.1 && v2.1 then ⟨.proceeded, v1.2 ++ v2.2, outputFiles⟩
    else ⟨.fatalValidate, v1.2 ++ v2.2, []⟩

/-- The paths `main` ever passes to `validate_path` (line 225): the consume
folder and the output folder.  `archive_folder` is never validated. -/
def validatedDirs (consume output : String) : List String := [consume, output]

/-! ### Upload (lines 122-144 of `main.py`) -/

/-- Result of the POST for one file: a response with an HTTP status, or a
`RequestException` (network error). -/
inductive PostResult where
  | resp (status : Nat)
  | netErr
deriving DecidableEq

/-- The upload loop (lines 129-144 of `main.py`): files are POSTed in
enumeration order; `response.raise_for_status()` raises `HTTPError` exactly
for statuses in 400-599, and any `RequestException` is caught outside the
`for`, so the first network error or 4xx/5xx response ends the loop and
makes `upload` return `False`.  Returns the overall result and the list of
files whose POST was attempted. -/
def uploadLoop (resp : String → PostResult) : List String → Bool × List String
  | [] => (true, [])
  | f :: rest =>
      match resp f with
      | .netErr => (false, [f])
      | .resp s =>
          if 400 ≤ s then (false, [f])
          else
            let r := uploadLoop resp rest
            (r.1, f :: r.2)

/-- Model of `upload()` (lines 122-144): if the connectivity pre-check
`test_api_connection()` fails the function falls through and returns `None`
(falsy, modelled as `false`) without POSTing anything; otherwise it runs the
upload loop over the output-folder listing. -/
def upload (apiOk : Bool) (resp : String → PostResult) (files : List String) : Bool × List String :=
  if apiOk then uploadLoop resp files else (false, [])

/-! ### End of `main` (lines 255-264 of `main.py`) -/

/-- Model of lines 255-264 of `main.py`: the upload gate followed by the
archive gate.  `uploadTruthy` is the truthiness of `upload()`'s return
value.  Returns whether the archive loop was reached, and the exit code if
`exit()` was called (the `exit(1)` at line 260 terminates the process, so
nothing after it runs). -/
def mainTail (uploadFlag archiveFlag uploadTruthy : Bool) : Bool × Option Nat :=
  if uploadFlag then
    if uploadTruthy then (archiveFlag, none)
    else (false, some 1)
  else (archiveFlag, none)

/-- The archive loop (lines 262-264 of `main.py`): each consume-folder entry
is moved with a bare `os.rename` and there is no `try` around the loop (it
sits after the `try`/`except` of lines 222-253), so the first failing move
raises an uncaught exception that ends the process.  Returns the entries
moved before the failure and the entry whose move raised (`none` when every
move succeeded). -/
def archiveLoop (moveOk : String → Bool) : List String → List String × Option String
  | [] => ([], none)
  | f :: rest =>
      if moveOk f then
        let r := archiveLoop moveOk rest
        (f :: r.1, r.2)
      else ([], some f)

/-! ### Interactive curation (`clean_consume`, lines 146-188 of `main.py`) -/

/-- One line typed by the operator: a number (Python's `int()` accepts any
integer, negative included) or input that makes `int()` raise `ValueError`. -/
inductive UserInput where
  | num (n : Int)
  | other
deriving DecidableEq

/-- How one run of `clean_consume` ended.  `skipped` is the `return True` of
lines 167 and 175; `finished` is the implicit `return None` when the `while`
condition fails; `starved` is a model artifact marking that the modelled
input stream ran out while the operator was still being prompted. -/
inductive CurateOutcome where
  | skipped
  | finished
  | starved
deriving DecidableEq

/-- The Python return value corresponding to each outcome (`starved` has no
Python counterpart and is mapped to `none`). -/
def returnValue : CurateOutcome → Option Bool
  | .skipped => some true
  | .finished => none
  | .starved => none

/-- Python truthiness of an `Optional[bool]` value. -/
def pyTruthy : Option Bool → Bool
  | none => false
  | some b => b

/-- The state machine of `clean_consume`.  `mode = none` is the top of the
outer `while` (line 149); `mode = some index` is the top of the inner
validation `while` (line 170) with `index` the value just read.  `rm` is the
success oracle of `os.remove` (a failing removal is reported and the outer
loop continues with the listing unchanged).  Returns the outcome, the final
consume listing, and the files deleted (appended to `acc`). -/
def curateGo (rm : String → Bool) : List String → Option Int → List UserInput → List String →
    CurateOutcome × List String × List String
  | content, none, inputs, acc =>
      if content.length ≤ 1 then (.finished, content, acc)
      else
        match inputs with
        | [] => (.starved, content, acc)
        | .other :: rest => curateGo rm content none rest acc
        | .num index :: rest =>
            if index = 0 then (.skipped, content, acc)
            else curateGo rm content (some index) rest acc
  | content, some index, inputs, acc =>
      if index < 1 ∨ (content.length : Int) < index then
        match inputs with
        | [] => (.starved, content, acc)
        | .other :: _ => (.skipped, content, acc)
        | .num j :: rest => curateGo rm content (some j) rest acc
      else
        match content[(index - 1).toNat]? with
        | none => (.starved, content, acc)
        | some victim =>
            if rm victim then
              curateGo rm (content.eraseIdx (index - 1).toNat) none inputs (acc ++ [victim])
            else
              curateGo rm content none inputs acc
termination_by content mode inputs acc => 2 * inputs.length + (if mode.isSome then 1 else 0)
decreasing_by all_goals simp <;> omega

/-- Model of `clean_consume()` (lines 146-188 of `main.py`), started at the
top of the outer loop with no deletions performed yet. -/
def clean_consume (rm : String → Bool) (content : List String) (inputs : List UserInput) :
    CurateOutcome × List String × List String :=
  curateGo rm content none inputs []

/-! ### Injectivity of decimal rendering

The temporary page names embed `Nat.repr` of the 1-based page ordinal; the
following round-trip argument shows distinct ordinals give distinct names. -/

/-- Value of a decimal digit character. -/
def digitVal (c : Char) : Nat := c.toNat - 48

/-- Parse a digit list back to the number it renders. -/
def parseDigits (l : List Char) : Nat := l.foldl (fun a c => 10 * a + digitVal c) 0

lemma digitVal_digitChar (d : Nat) (hd : d < 10) : digitVal (Nat.digitChar d) = d := by
  interval_cases d <;> rfl

lemma toDigitsCore_eq_append (b : Nat) : ∀ (fuel n : Nat) (ds : List Char),
    Nat.toDigitsCore b fuel n ds = Nat.toDigitsCore b fuel n [] ++ ds := by
  intro fuel
  induction fuel with
  | zero => intro n ds; simp [Nat.toDigitsCore]
  | succ fuel ih =>
      intro n ds
      simp only [Nat.toDigitsCore]
      by_cases h : n / b = 0
      · simp [h]
      · rw [if_neg h, if_neg h, ih (n / b) (Nat.digitChar (n % b) :: ds),
          ih (n / b) [Nat.digitChar (n % b)], List.append_assoc]
        rfl

lemma parseDigits_toDigitsCore : ∀ (fuel n : Nat), n < fuel →
    parseDigits (Nat.toDigitsCore 10 fuel n []) = n := by
  intro fuel
  induction fuel with
  | zero => intro n h; exact absurd h (Nat.not_lt_zero n)
  | succ fuel ih =>
      intro n hn
      simp only [Nat.toDigitsCore]
      by_cases h : n / 10 = 0
      · have hlt : n < 10 := by omega
        rw [if_pos h]
        simp [parseDigits, digitVal_digitChar (n % 10) (Nat.mod_lt _ (by norm_num))]
        omega
      · have hn10 : 10 ≤ n := by
          by_contra hc
          exact h (Nat.div_eq_of_lt (by omega))
        have hdiv : n / 10 < fuel := by
          have : n / 10 < n := Nat.div_lt_self (by omega) (by norm_num)
          omega
        rw [if_neg h, toDigitsCore_eq_append]
        simp only [parseDigits, List.foldl_append]
        have hrec := ih (n / 10) hdiv
        simp only [parseDigits] at hrec
        rw [hrec]
        simp [digitVal_digitChar (n % 10) (Nat.mod_lt _ (by norm_num))]
        omega

lemma natRepr_injective {a b : Nat} (h : Nat.repr a = Nat.repr b) : a = b := by
  have hdata : Nat.toDigits 10 a = Nat.toDigits 10 b := by
    have hh := congrArg String.data h
    simpa [Nat.repr, List.asString] using hh
  have ha := parseDigits_toDigitsCore (a + 1) a (Nat.lt_succ_self a)
  have hb := parseDigits_toDigitsCore (b + 1) b (Nat.lt_succ_self b)
  calc a = parseDigits (Nat.toDigitsCore 10 (a + 1) a []) := ha.symm
    _ = parseDigits (Nat.toDigitsCore 10 (b + 1) b []) := by
        have : Nat.toDigitsCore 10 (a + 1) a [] = Nat.toDigitsCore 10 (b + 1) b [] := hdata
        rw [this]
    _ = b := hb

lemma tempName_inj {a b : Nat} (h : tempName a = tempName b) : a = b := by
  have hd := congrArg String.data h
  simp only [tempName, String.data_append] at hd
  have h1 := List.append_cancel_right hd
  have h2 := List.append_cancel_left h1
  exact natRepr_injective (String.ext h2)

/-! ### Helper lemmas about the rename loop and the per-document loop -/

lemma renameLoop_counter (ok : String → Bool) (ts : String) :
    ∀ (fs : List String) (idx : Nat) (dir : List FileEnt) (ren : List Nat),
    (renameLoop ok ts fs idx dir ren).counter = idx + (fs.filter ok).length := by
  intro fs
  induction fs with
  | nil => intro idx dir ren; simp [renameLoop]
  | cons f rest ih =>
      intro idx dir ren
      cases hok : ok f with
      | true => simp [renameLoop, hok, ih]; omega
      | false => simp [renameLoop, hok, ih]

lemma rename_files_counter (ok : String → Bool) (ts : String) (dir : List FileEnt)
    (c : Nat) (ren : List Nat) :
    (rename_files ok ts dir c ren).counter = c + renameOpsCount ok dir := by
  unfold rename_files renameOpsCount
  by_cases h : ((dir.map FileEnt.name).filter (fun f => pyEndsWith f ".pdf")).isEmpty
  · simp [h]
  · simp [h, renameLoop_counter]

/-! ### Claim theorems -/

/-- C1: the claim predicts that a run over document A (3 pages) then document
B (2 pages) leaves A's pages named 01-03 and B's pages named 04-05.  The code
instead re-lists A's already renamed files during B's rename pass (line 81 of
`main.py` filters on `.pdf`, which matches them) and renames them again: the
run ends with the five files named 04-08, all carrying B's timestamp, the
counter at 9, and eight rename operations logged; no file named
`01_Xerox_Scan_A.pdf` survives. -/
theorem c1_second_pass_renames_first_documents_pages :
    runAB = ⟨[⟨0, "04_Xerox_Scan_B.pdf"⟩, ⟨1, "05_Xerox_Scan_B.pdf"⟩,
      ⟨2, "06_Xerox_Scan_B.pdf"⟩, ⟨3, "07_Xerox_Scan_B.pdf"⟩, ⟨4, "08_Xerox_Scan_B.pdf"⟩],
      9, 5, [0, 1, 2, 0, 1, 2, 3, 4]⟩
    ∧ "01_Xerox_Scan_A.pdf" ∉ runAB.dir.map FileEnt.name
    ∧ "04_Xerox_Scan_B.pdf" ∈ runAB.dir.map FileEnt.name := by
  decide

/-- C2 counterexample: after the A-then-B run the orchestrator's counter is
9, while only 5 distinct page files were ever successfully renamed (the
deduplicated rename log), so the counter does not equal 1 plus the number of
distinct page files renamed. -/
theorem c2_counterexample_distinct_files :
    runAB.counter = 9 ∧ runAB.renamedFids.dedup.length = 5
    ∧ runAB.counter ≠ 1 + runAB.renamedFids.dedup.length := by
  decide

/-- C2 (amended): at every document boundary of the per-document loop the
counter equals its initial value plus the number of successful `os.rename`
operations performed so far - operations, not distinct page files, because a
file renamed for an earlier document is listed and renamed again by later
invocations.  With the initial value 1 this is 1 + the operation count. -/
theorem c2_counter_counts_rename_operations (ok : String → Bool) (docs : List Doc)
    (st : RunState) :
    (processDocs ok docs st).counter = st.counter + runOpsCount ok docs st := by
  induction docs generalizing st with
  | nil => simp [processDocs, runOpsCount]
  | cons d rest ih =>
      simp only [processDocs, runOpsCount]
      by_cases h : (split_pdf true d.pdfExists d.numPages d.pageOk st.dir st.nextFid).success
      · simp only [h, if_true, ih, rename_files_counter]
        omega
      · simp only [h, if_false, Bool.false_eq_true, ite_false, ih]
        omega

/-- C3 counterexample: with the upload flag and the archive flag both set and
a failed upload, `main` calls `exit(1)` (line 260) before the archive block,
so the archive loop is never reached. -/
theorem c3_counterexample_upload_failure_blocks_archiving :
    (mainTail true true false).1 = false ∧ (mainTail true true false).2 = some 1 := by
  decide

/-- C3 (amended): the archive step runs after the per-document loop whenever
the archive flag is set and upload was either not requested or succeeded;
when a requested upload fails the process exits with code 1 first and the
archive step does not run. -/
theorem c3_archiving_runs_unless_upload_failed (uploadFlag archiveFlag uploadTruthy : Bool)
    (harch : archiveFlag = true) (hok : uploadFlag = false ∨ uploadTruthy = true) :
    mainTail uploadFlag archiveFlag uploadTruthy = (true, none) := by
  rcases hok with h | h <;> simp [mainTail, h, harch]

/-- C3 witness: no upload requested, archive flag set. -/
theorem c3_witness : mainTail false true false = (true, none) :=
  c3_archiving_runs_unless_upload_failed false true false rfl (Or.inl rfl)

/-- C4 counterexample: a placeholder in the TLS trust-anchor path (`pubkey`)
is not detected - line 223 of `main.py` tests only `consume_folder` and
`output_folder` - so the run proceeds, creates both directories and removes
the existing output files even though `pubkey` contains the placeholder. -/
theorem c4_counterexample_pubkey_not_checked :
    configPhase (fun _ => false) (fun _ => true) "consume" "output" "C:/path/to/cert.pem"
        ["old.pdf"]
      = ⟨.proceeded, ["consume", "output"], ["old.pdf"]⟩
    ∧ pyContains "C:/path/to/cert.pem" placeholderText = true := by
  decide

/-- C4 (amended): a placeholder substring in the consume folder or the output
folder aborts the run with the fatal configuration error before any directory
is created or file removed; the TLS trust-anchor path is never tested. -/
theorem c4_placeholder_aborts_before_fs (pathExists mkdirOk : String → Bool)
    (consume output pubkey : String) (files : List String)
    (h : pyContains consume placeholderText = true ∨ pyContains output placeholderText = true) :
    configPhase pathExists mkdirOk consume output pubkey files = ⟨.fatalPlaceholder, [], []⟩ := by
  rcases h with h | h <;> simp [configPhase, h]

/-- C4 witness: a placeholder consume path aborts with no file-system
footprint. -/
theorem c4_witness :
    configPhase (fun _ => true) (fun _ => true) "C:/path/to/consume" "out" "pub" ["f.pdf"]
      = ⟨.fatalPlaceholder, [], []⟩ :=
  c4_placeholder_aborts_before_fs (fun _ => true) (fun _ => true) "C:/path/to/consume" "out"
    "pub" ["f.pdf"] (Or.inl (by decide))

/-- Response oracle of the C5 counterexample: the first file gets a 301
response (non-2xx), the rest get 200. -/
def respCE : String → PostResult := fun f => if f == "a.pdf" then .resp 301 else .resp 200

/-- C5 counterexample: a 301 response is not a 2xx response, yet
`raise_for_status()` does not raise for it, so the loop continues: the second
file is still POSTed and the upload reports success, contradicting the claim
that the first non-2xx response aborts all remaining uploads. -/
theorem c5_counterexample_301_does_not_abort :
    uploadLoop respCE ["a.pdf", "b.pdf"] = (true, ["a.pdf", "b.pdf"])
    ∧ respCE "a.pdf" = .resp 301 ∧ ¬(200 ≤ 301 ∧ 301 < 300) := by
  decide

/-- C5 (amended): the first file whose POST hits a network error or draws a
4xx/5xx response (the statuses `raise_for_status()` raises for) aborts the
loop - files after it are not POSTed - and the upload reports failure;
responses below 400, including non-2xx redirects, do not abort. -/
theorem c5_first_error_aborts_rest (resp : String → PostResult) (pre : List String)
    (f : String) (post : List String)
    (hpre : ∀ g ∈ pre, ∃ s, resp g = .resp s ∧ s < 400)
    (hf : resp f = .netErr ∨ ∃ s, resp f = .resp s ∧ 400 ≤ s) :
    uploadLoop resp (pre ++ f :: post) = (false, pre ++ [f]) := by
  induction pre with
  | nil =>
      rcases hf with h | ⟨s, hs, h400⟩
      · simp [uploadLoop, h]
      · simp [uploadLoop, hs, h400]
  | cons g gs ih =>
      obtain ⟨s, hg, hs⟩ := hpre g (List.mem_cons_self g gs)
      have hrest := ih (fun x hx => hpre x (List.mem_cons_of_mem g hx))
      simp [uploadLoop, hg, Nat.not_le.2 hs, hrest]

/-- C5 witness: a network error on the second of three files stops the batch
there with overall failure. -/
theorem c5_witness :
    uploadLoop (fun f => if f == "bad.pdf" then .netErr else .resp 200)
        (["x.pdf"] ++ "bad.pdf" :: ["y.pdf"])
      = (false, ["x.pdf"] ++ ["bad.pdf"]) := by
  refine c5_first_error_aborts_rest _ ["x.pdf"] "bad.pdf" ["y.pdf"] ?_ ?_
  · intro g hg
    simp only [List.mem_singleton] at hg
    subst hg
    exact ⟨200, rfl, by omega⟩
  · exact Or.inl rfl

lemma split_fold (pageOk : Nat → Bool) : ∀ (n : Nat) (dir : List FileEnt) (fid : Nat),
    (∀ k, k < n → pageOk (k + 1) = true) →
    (∀ e ∈ dir, ∀ k, k < n → e.name ≠ tempName (k + 1)) →
    (List.range n).foldl
        (fun acc k =>
          if pageOk (k + 1) then (fsWrite acc.1 acc.2 (tempName (k + 1)), acc.2 + 1) else acc)
        (dir, fid)
      = (dir ++ (List.range n).map (fun k => ⟨fid + k, tempName (k + 1)⟩), fid + n) := by
  intro n
  induction n with
  | zero => intro dir fid _ _; simp
  | succ n ih =>
      intro dir fid hpage hfresh
      rw [List.range_succ, List.foldl_append,
        ih dir fid (fun k hk => hpage k (by omega)) (fun e he k hk => hfresh e he k (by omega))]
      have hany : ((dir ++ (List.range n).map
          (fun k => (⟨fid + k, tempName (k + 1)⟩ : FileEnt))).any
            (fun e => e.name == tempName (n + 1))) = false := by
        rw [List.any_eq_false]
        intro e he
        rcases List.mem_append.1 he with hd | hm
        · simpa using hfresh e hd n (by omega)
        · obtain ⟨k, hk, rfl⟩ := List.mem_map.1 hm
          have hklt : k < n := List.mem_range.1 hk
          intro hEq
          have := tempName_inj (a := k + 1) (b := n + 1) (by simpa using hEq)
          omega
      simp only [List.foldl_cons, List.foldl_nil, hpage n (by omega), if_true]
      rw [fsWrite, if_neg (by simp [hany])]
      simp [List.range_succ, List.append_assoc]
      omega

/-- C6: splitting an existing document with `n ≥ 1` pages, with no individual
page-extraction failure and no stale temporary files in the output directory,
returns success and writes exactly `n` new single-page artifacts, one per
page ordinal, under the temporary names `temp_page_1.pdf` ... ; those names
are pairwise distinct. -/
theorem c6_split_writes_one_page_per_ordinal (n : Nat) (pageOk : Nat → Bool)
    (dir : List FileEnt) (fid : Nat) (hn : 1 ≤ n)
    (hpage : ∀ k, k < n → pageOk (k + 1) = true)
    (hfresh : ∀ e ∈ dir, ∀ k, k < n → e.name ≠ tempName (k + 1)) :
    split_pdf true true n pageOk dir fid =
      ⟨true, dir ++ (List.range n).map (fun k => ⟨fid + k, tempName (k + 1)⟩), fid + n⟩
    ∧ ((List.range n).map (fun k => tempName (k + 1))).Nodup := by
  constructor
  · unfold split_pdf
    rw [if_neg (by simp), if_neg (by simp), if_neg (by omega)]
    rw [split_fold pageOk n dir fid hpage hfresh]
  · exact List.Nodup.map (fun a b hEq => by have := tempName_inj hEq; omega) (List.nodup_range n)

/-- C6 witness: a 3-page document split into an empty output directory. -/
theorem c6_witness :
    split_pdf true true 3 pagesAll [] 0 =
      ⟨true, [] ++ (List.range 3).map (fun k => ⟨0 + k, tempName (k + 1)⟩), 0 + 3⟩
    ∧ ((List.range 3).map (fun k => tempName (k + 1))).Nodup :=
  c6_split_writes_one_page_per_ordinal 3 pagesAll [] 0 (by omega) (fun k _ => rfl) (by simp)

/-- C7: in the curation loop, an out-of-range numeric index followed by
non-numeric input at the re-prompt makes `clean_consume` return `True`
("skip", a success) immediately, with the consume listing unchanged and
nothing deleted. -/
theorem c7_invalid_index_then_nonnumeric_skips (rm : String → Bool) (content : List String)
    (k : Int) (rest : List UserInput) (acc : List String)
    (hlen : 2 ≤ content.length) (hk0 : k ≠ 0)
    (hk : k < 1 ∨ (content.length : Int) < k) :
    curateGo rm content none (.num k :: .other :: rest) acc = (.skipped, content, acc)
    ∧ returnValue .skipped = some true := by
  have h1 : ¬(content.length ≤ 1) := by omega
  exact ⟨by simp [curateGo, h1, hk0, hk], rfl⟩

/-- C7 witness: two files, operator types 5 (out of range) and then
non-numeric input. -/
theorem c7_witness :
    curateGo (fun _ => true) ["a", "b"] none [.num 5, .other] [] = (.skipped, ["a", "b"], [])
    ∧ returnValue .skipped = some true :=
  c7_invalid_index_then_nonnumeric_skips (fun _ => true) ["a", "b"] 5 [] []
    (by decide) (by decide) (by decide)

/-- C8: the archive directory is not among the paths the run validates or
creates (line 225 of `main.py` validates exactly the consume and output
folders), and the archive loop moves entries with a bare `os.rename`: the
first failing move raises out of the loop - which sits outside every
`try` - so the entries before it are already moved, the failing entry and all
later ones are not, and the exception escapes (terminating the process). -/
theorem c8_archive_unvalidated_and_partial_on_failure (consume output archive : String)
    (moveOk : String → Bool) (pre : List String) (f : String) (post : List String)
    (hc : archive ≠ consume) (ho : archive ≠ output)
    (hpre : ∀ g ∈ pre, moveOk g = true) (hf : moveOk f = false) :
    archive ∉ validatedDirs consume output
    ∧ archiveLoop moveOk (pre ++ f :: post) = (pre, some f) := by
  constructor
  · simp [validatedDirs, hc, ho]
  · induction pre with
    | nil => simp [archiveLoop, hf]
    | cons g gs ih =>
        have hg := hpre g (List.mem_cons_self g gs)
        have hrest := ih (fun x hx => hpre x (List.mem_cons_of_mem g hx))
        simp [archiveLoop, hg, hrest]

/-- C8 witness: archiving three entries where the second move fails leaves
exactly the first entry moved and raises at the second. -/
theorem c8_witness :
    "Archive" ∉ validatedDirs "consume" "output"
    ∧ archiveLoop (fun f => if f == "b.pdf" then false else true)
        (["a.pdf"] ++ "b.pdf" :: ["c.pdf"]) = (["a.pdf"], some "b.pdf") := by
  refine c8_archive_unvalidated_and_partial_on_failure "consume" "output" "Archive"
    _ ["a.pdf"] "b.pdf" ["c.pdf"] (by decide) (by decide) ?_ (by decide)
  intro g hg
  simp only [List.mem_singleton] at hg
  subst hg
  decide

/-- C9: at the re-prompt of the inner validation loop, typing 0 does not
skip - 0 fails the `index < 1` test and the operator is prompted again
(first conjunct); the only exits are non-numeric input, which skips with
nothing deleted (second conjunct), and an in-range index (third conjunct),
which deletes the selected file (fourth conjunct).  The 0-skip of line 165
applies only at the first prompt of an iteration (fifth conjunct). -/
theorem c9_zero_at_reprompt_does_not_skip (rm : String → Bool) (content : List String)
    (rest inputs : List UserInput) (acc : List String) (i : Int) (v : String)
    (hlen : 2 ≤ content.length) (h1 : 1 ≤ i) (h2 : i ≤ (content.length : Int))
    (hv : content[(i - 1).toNat]? = some v) (hrm : rm v = true) :
    curateGo rm content (some 0) (.num 0 :: rest) acc = curateGo rm content (some 0) rest acc
    ∧ curateGo rm content (some 0) (.other :: rest) acc = (.skipped, content, acc)
    ∧ curateGo rm content (some 0) (.num i :: rest) acc = curateGo rm content (some i) rest acc
    ∧ curateGo rm content (some i) inputs acc =
        curateGo rm (content.eraseIdx (i - 1).toNat) none inputs (acc ++ [v])
    ∧ curateGo rm content none (.num 0 :: rest) acc = (.skipped, content, acc) := by
  have hz : (0 : Int) < 1 ∨ (content.length : Int) < 0 := Or.inl (by omega)
  have hvalid : ¬(i < 1 ∨ (content.length : Int) < i) := by omega
  refine ⟨?_, ?_, ?_, ?_, ?_⟩
  · rw [curateGo.eq_6, if_pos hz]
  · rw [curateGo.eq_5, if_pos hz]
  · rw [curateGo.eq_6, if_pos hz]
  · rw [curateGo.eq_def]
    simp only []
    rw [if_neg hvalid, hv]
    simp [hrm]
  · have hl : ¬(content.length ≤ 1) := by omega
    rw [curateGo.eq_3, if_neg hl, if_pos rfl]

/-- C9 witness: two files, pending re-prompt, index 1 valid and deletable. -/
theorem c9_witness :
    (curateGo (fun _ => true) ["a", "b"] (some 0) [.num 0] []
        = curateGo (fun _ => true) ["a", "b"] (some 0) [] [])
    ∧ curateGo (fun _ => true) ["a", "b"] (some 0) [.other] [] = (.skipped, ["a", "b"], [])
    ∧ (curateGo (fun _ => true) ["a", "b"] (some 0) [.num 1] []
        = curateGo (fun _ => true) ["a", "b"] (some 1) [] [])
    ∧ (curateGo (fun _ => true) ["a", "b"] (some 1) [] []
        = curateGo (fun _ => true) (["a", "b"].eraseIdx ((1 - 1 : Int)).toNat) none [] ([] ++ ["a"]))
    ∧ curateGo (fun _ => true) ["a", "b"] none (.num 0 :: []) [] = (.skipped, ["a", "b"], []) :=
  c9_zero_at_reprompt_does_not_skip (fun _ => true) ["a", "b"] [] [] [] 1 "a"
    (by decide) (by decide) (by decide) (by decide) rfl

/-- C10: when the operator deletes files until at most one entry remains, the
loop condition fails and `clean_consume` returns `None` (`finished`), not
`True`: a caller testing the return value for truthiness sees this successful
termination as falsy, while the explicit skip paths return `True`. -/
theorem c10_fallthrough_returns_none (a b : String) :
    clean_consume (fun _ => true) [a, b] [.num 1] = (.finished, [b], [a])
    ∧ returnValue .finished = none
    ∧ pyTruthy (returnValue .finished) = false
    ∧ pyTruthy (returnValue .skipped) = true := by
  refine ⟨?_, rfl, rfl, rfl⟩
  simp [clean_consume, curateGo]

end PaperlessRest
